import Mathlib

/-!
Verification of the context-management module (`src/context.rs`) of a
binding layer over a native color-management engine.

The wrapper code under `src/context.rs` is embedded shallowly: every
wrapper function becomes a Lean function that threads an explicit
`Engine` state (the process-wide state of the native engine) and, where
the Rust code can abort on a failed assertion, returns an `Option`
(`none` = process abort).  Native handles and raw pointers are `Nat`,
with `0` playing the role of the null pointer.

The native engine itself is not part of the repository; its operations
(`cmsCreateContext`, `cmsDupContext`, `cmsDeleteContext`,
`cmsGetContextUserData`, `cmsPluginTHR`, `cmsUnregisterPluginsTHR`,
`cmsUnregisterPlugins`) are modelled from the specification's external
interface section.  Every native call appends an event to a trace kept
inside the engine state, so that "which native calls were made" is
observable in theorems.
-/

namespace Lcms2

/-- One call across the native C ABI boundary, as recorded in the trace.
Arguments are the raw values passed (handles and pointers as `Nat`,
`0` = null). -/
inductive FFICall where
  | createContext (alloc ud : Nat)
  | dupContext (src ud : Nat)
  | deleteContext (h : Nat)
  | getContextUserData (h : Nat)
  | pluginTHR (h p : Nat)
  | unregisterPluginsTHR (h : Nat)
  | unregisterPluginsGlobal
deriving DecidableEq

/-- Modelled from the spec: the process-wide state of the native engine,
which is missing from `src/` (only its C ABI declarations are consumed).
`nextHandle` drives fresh-handle allocation (allocated handles are
successors, so never `0`/null); `userData` and `plugins` map each handle
to its associated opaque user-data pointer and its list of registered
plugins (index `0` is the global scope); `live` lists the currently
allocated context handles; `allocOk` and `pluginRes` are oracles for the
engine's allocation success and plugin-registration result, capturing
the nondeterminism of the native layer; `trace` records every native
call made, most recent first. -/
structure Engine where
  nextHandle : Nat
  userData : Nat → Nat
  plugins : Nat → List Nat
  live : List Nat
  allocOk : Nat → Bool
  pluginRes : Nat → Nat → Int
  trace : List FFICall

/-- Modelled from the spec: `create-context(allocator, user-data) →
handle-or-null`.  On success allocates a fresh handle with the given
user data and no plugins; on allocation failure returns the null
handle `0` and changes no engine state. -/
def Engine.createContext (e : Engine) (alloc ud : Nat) : Engine × Nat :=
  let h := e.nextHandle + 1
  if e.allocOk h then
    ({ e with
        nextHandle := h
        userData := fun x => if x = h then ud else e.userData x
        plugins := fun x => if x = h then [] else e.plugins x
        live := h :: e.live
        trace := .createContext alloc ud :: e.trace }, h)
  else
    ({ e with trace := .createContext alloc ud :: e.trace }, 0)

/-- Modelled from the spec: `duplicate-context(handle, new-user-data) →
handle-or-null`.  On success allocates a fresh handle whose plugin
configuration is copied from the source and whose user data is the
source's when the new user data is null, otherwise the supplied value;
on allocation failure returns the null handle. -/
def Engine.dupContext (e : Engine) (src ud : Nat) : Engine × Nat :=
  let h := e.nextHandle + 1
  if e.allocOk h then
    ({ e with
        nextHandle := h
        userData := fun x => if x = h then (if ud = 0 then e.userData src else ud)
                             else e.userData x
        plugins := fun x => if x = h then e.plugins src else e.plugins x
        live := h :: e.live
        trace := .dupContext src ud :: e.trace }, h)
  else
    ({ e with trace := .dupContext src ud :: e.trace }, 0)

/-- Modelled from the spec: `delete-context(handle) → void`.  Releases
the handle: it stops being live and its plugin and user-data
associations are discarded; all other handles are untouched. -/
def Engine.deleteContext (e : Engine) (h : Nat) : Engine :=
  { e with
      live := e.live.erase h
      userData := fun x => if x = h then 0 else e.userData x
      plugins := fun x => if x = h then [] else e.plugins x
      trace := .deleteContext h :: e.trace }

/-- Modelled from the spec: `get-context-user-data(handle) →
opaque-pointer`.  Returns the pointer associated with the handle,
verbatim and uninterpreted. -/
def Engine.getContextUserData (e : Engine) (h : Nat) : Engine × Nat :=
  ({ e with trace := .getContextUserData h :: e.trace }, e.userData h)

/-- Modelled from the spec: `register-plugin-scoped(handle, plugin-blob)
→ boolean`.  The engine reports success via a nonzero integer (the
oracle's value); on success the plugin is added to that handle's scope
only. -/
def Engine.pluginTHR (e : Engine) (h p : Nat) : Engine × Int :=
  let r := e.pluginRes h p
  if r ≠ 0 then
    ({ e with
        plugins := fun x => if x = h then p :: e.plugins x else e.plugins x
        trace := .pluginTHR h p :: e.trace }, r)
  else
    ({ e with trace := .pluginTHR h p :: e.trace }, r)

/-- Modelled from the spec: `unregister-all-plugins-scoped(handle) →
void`.  Clears the plugin list of that handle only. -/
def Engine.unregisterPluginsTHR (e : Engine) (h : Nat) : Engine :=
  { e with
      plugins := fun x => if x = h then [] else e.plugins x
      trace := .unregisterPluginsTHR h :: e.trace }

/-- Modelled from the spec: `unregister-all-plugins-global() → void`.
Clears the global plugin scope (index `0`). -/
def Engine.unregisterPluginsGlobal (e : Engine) : Engine :=
  { e with
      plugins := fun x => if x = 0 then [] else e.plugins x
      trace := .unregisterPluginsGlobal :: e.trace }

/-- `GlobalContext`: a zero-size marker type; carries no native handle
(its `UnsafeCell<()>` field has no observable state and is erased). -/
structure GlobalContext

/-- `ThreadContext`: owns exactly one native context handle. -/
structure ThreadContext where
  handle : Nat
deriving DecidableEq

/-- `impl Context for GlobalContext`: `as_ptr` returns
`ptr::null_mut()`, i.e. the null handle `0`.  It takes no engine state:
the Rust body makes no native call and reads no mutable state. -/
def GlobalContext.as_ptr (_g : GlobalContext) : Nat := 0

/-- `impl Context for &ThreadContext`: `as_ptr` returns `self.handle`.
It takes no engine state: the Rust body makes no native call. -/
def ThreadContext.as_ptr (c : ThreadContext) : Nat := c.handle

/-- `GlobalContext::new`: builds the marker; the body performs no
native call, so the engine state is returned unchanged. -/
def GlobalContext.new (e : Engine) : GlobalContext × Engine := (⟨⟩, e)

/-- `impl Default for GlobalContext`: `default()` is `Self::new()`. -/
def GlobalContext.default (e : Engine) : GlobalContext × Engine :=
  GlobalContext.new e

/-- `GlobalContext::unregister_plugins`: calls
`ffi::cmsUnregisterPlugins()`. -/
def GlobalContext.unregister_plugins (_g : GlobalContext) (e : Engine) : Engine :=
  e.unregisterPluginsGlobal

/-- `ThreadContext::new_handle`: `assert!(!handle.is_null())` then wrap.
A failed assertion aborts the process, embedded as `none`. -/
def ThreadContext.new_handle (handle : Nat) : Option ThreadContext :=
  if handle = 0 then none else some ⟨handle⟩

/-- `ThreadContext::new`:
`Self::new_handle(ffi::cmsCreateContext(ptr::null_mut(), ptr::null_mut()))`. -/
def ThreadContext.new (e : Engine) : Option (ThreadContext × Engine) :=
  let r := e.createContext 0 0
  (ThreadContext.new_handle r.2).map (fun c => (c, r.1))

/-- `impl Clone for ThreadContext`: `clone` is
`Self::new_handle(ffi::cmsDupContext(self.handle, ptr::null_mut()))`. -/
def ThreadContext.clone (c : ThreadContext) (e : Engine) : Option (ThreadContext × Engine) :=
  let r := e.dupContext c.handle 0
  (ThreadContext.new_handle r.2).map (fun c2 => (c2, r.1))

/-- `impl Default for ThreadContext`: `default()` is `Self::new()`. -/
def ThreadContext.default (e : Engine) : Option (ThreadContext × Engine) :=
  ThreadContext.new e

/-- `ThreadContext::user_data`: returns
`ffi::cmsGetContextUserData(self.handle)`. -/
def ThreadContext.user_data (c : ThreadContext) (e : Engine) : Nat × Engine :=
  let r := e.getContextUserData c.handle
  (r.2, r.1)

/-- `ThreadContext::install_plugin`: returns
`0 != ffi::cmsPluginTHR(self.handle, plugin)`. -/
def ThreadContext.install_plugin (c : ThreadContext) (p : Nat) (e : Engine) : Bool × Engine :=
  let r := e.pluginTHR c.handle p
  (0 != r.2, r.1)

/-- `ThreadContext::unregister_plugins`: calls
`ffi::cmsUnregisterPluginsTHR(self.handle)`. -/
def ThreadContext.unregister_plugins (c : ThreadContext) (e : Engine) : Engine :=
  e.unregisterPluginsTHR c.handle

/-- `impl Drop for ThreadContext`: calls
`ffi::cmsDeleteContext(self.handle)`. -/
def ThreadContext.drop (c : ThreadContext) (e : Engine) : Engine :=
  e.deleteContext c.handle

/-- The operations available on a live `ThreadContext` between its
construction and its destruction (the safe, non-consuming methods of
the wrapper). -/
inductive CtxOp where
  | userData
  | installPlugin (p : Nat)
  | unregisterPlugins
deriving DecidableEq

/-- Run one wrapper method on a live context, keeping only the engine
state (none of the Rust methods reassigns `self.handle`). -/
def runOp (c : ThreadContext) (e : Engine) : CtxOp → Engine
  | .userData => (c.user_data e).2
  | .installPlugin p => (c.install_plugin p e).2
  | .unregisterPlugins => c.unregister_plugins e

/-- Run a sequence of wrapper methods on a live context. -/
def runOps (c : ThreadContext) (e : Engine) : List CtxOp → Engine
  | [] => e
  | op :: ops => runOps c (runOp c e op) ops

/-- Number of `delete-context` calls on handle `h` recorded in a trace. -/
def countDelete (h : Nat) (t : List FFICall) : Nat :=
  t.count (FFICall.deleteContext h)

/-- A concrete engine state for witnesses: handle `1` is live, every
allocation succeeds, plugin registration reports `1`. -/
def testEngine : Engine where
  nextHandle := 1
  userData := fun _ => 0
  plugins := fun _ => []
  live := [1]
  allocOk := fun _ => true
  pluginRes := fun _ _ => 1
  trace := []

/-- The constructed wrapper, when construction returns at all, holds a
non-null handle. -/
def handleNonNull : Option (ThreadContext × Engine) → Prop
  | none => True
  | some (c, _) => c.handle ≠ 0

/-- A context built by `new()` reports null user data. -/
def newUserDataNull (e : Engine) : Prop :=
  match ThreadContext.new e with
  | none => True
  | some (c, e1) => (c.user_data e1).1 = 0

/-- A context built by `clone()` reports the same user data as its
source (clone passes null new-user-data to `duplicate-context`). -/
def cloneKeepsUserData (c0 : ThreadContext) (e : Engine) : Prop :=
  match c0.clone e with
  | none => True
  | some (c, e1) => (c.user_data e1).1 = (c0.user_data e).1

/-- `new()` makes exactly one native call, `create-context` with null
allocator and null user data. -/
def newTracesNullArgs (e : Engine) : Prop :=
  match ThreadContext.new e with
  | none => True
  | some (_, e1) => e1.trace = FFICall.createContext 0 0 :: e.trace

/-- `clone()` makes exactly one native call, `duplicate-context` on the
source handle with null new-user-data. -/
def cloneTracesNullUserData (c0 : ThreadContext) (e : Engine) : Prop :=
  match c0.clone e with
  | none => True
  | some (_, e1) => e1.trace = FFICall.dupContext c0.handle 0 :: e.trace

/-- Over a completed lifetime (construction by `new`, any sequence of
wrapper methods, then `drop`), exactly one `delete-context` call on the
owned handle is added to the trace. -/
def deleteExactlyOnce (e : Engine) (ops : List CtxOp) : Prop :=
  match ThreadContext.new e with
  | none => True
  | some (c, e1) =>
      countDelete c.handle (c.drop (runOps c e1 ops)).trace
        = countDelete c.handle e.trace + 1

/-- The clone is a fresh, independent context: distinct handle, plugin
installation on either one leaves the other's plugin list untouched,
and dropping both deletes each handle exactly once. -/
def cloneIndependent (c0 : ThreadContext) (e : Engine) (p : Nat) : Prop :=
  match c0.clone e with
  | none => True
  | some (c, e1) =>
      c.handle ≠ c0.handle ∧
      ((c0.install_plugin p e1).2).plugins c.handle = e1.plugins c.handle ∧
      ((c.install_plugin p e1).2).plugins c0.handle = e1.plugins c0.handle ∧
      countDelete c.handle (c.drop (c0.drop e1)).trace
        = countDelete c.handle e1.trace + 1 ∧
      countDelete c0.handle (c.drop (c0.drop e1)).trace
        = countDelete c0.handle e1.trace + 1

/-- `unregister_plugins` clears this context's plugin scope and leaves
every other handle's plugins and user data alone; `drop` likewise
leaves every other handle's plugins, user data and liveness alone. -/
def scopedFrame (c : ThreadContext) (e : Engine) (h2 : Nat) : Prop :=
  (c.unregister_plugins e).plugins c.handle = [] ∧
  (c.unregister_plugins e).plugins h2 = e.plugins h2 ∧
  (c.unregister_plugins e).userData h2 = e.userData h2 ∧
  (c.drop e).plugins h2 = e.plugins h2 ∧
  (c.drop e).userData h2 = e.userData h2 ∧
  (h2 ∈ e.live ↔ h2 ∈ (c.drop e).live)

/-- `install_plugin` returns `true` exactly when the engine's
`register-plugin-scoped` result is nonzero, and leaves the plugin list
of any other handle unchanged. -/
def installPluginSpec (c : ThreadContext) (p : Nat) (e : Engine) (h2 : Nat) : Prop :=
  ((c.install_plugin p e).1 = true ↔ (e.pluginTHR c.handle p).2 ≠ 0) ∧
  ((c.install_plugin p e).2).plugins h2 = e.plugins h2

/-- Over a completed lifetime, the handle passed to `delete-context` at
destruction is exactly the handle obtained from `create-context` at
construction, whatever wrapper methods ran in between. -/
def dropUsesConstructionHandle (e : Engine) (ops : List CtxOp) : Prop :=
  match ThreadContext.new e with
  | none => True
  | some (c, e1) =>
      c.handle = (e.createContext 0 0).2 ∧
      (c.drop (runOps c e1 ops)).trace
        = FFICall.deleteContext (e.createContext 0 0).2 :: (runOps c e1 ops).trace

theorem handleNonNull_map (h : Nat) (e : Engine) :
    handleNonNull ((ThreadContext.new_handle h).map (fun c => (c, e))) := by
  unfold ThreadContext.new_handle
  by_cases h0 : h = 0 <;> simp [h0, handleNonNull]

theorem countDelete_cons (h : Nat) (ev : FFICall) (t : List FFICall) :
    countDelete h (ev :: t)
      = countDelete h t + if ev = FFICall.deleteContext h then 1 else 0 := by
  by_cases hev : ev = FFICall.deleteContext h <;>
    simp [countDelete, hev, List.count_cons]

theorem countDelete_runOp (c : ThreadContext) (e : Engine) (op : CtxOp) (h : Nat) :
    countDelete h (runOp c e op).trace = countDelete h e.trace := by
  cases op with
  | userData =>
      simp [runOp, ThreadContext.user_data, Engine.getContextUserData, countDelete_cons]
  | installPlugin p =>
      simp only [runOp, ThreadContext.install_plugin, Engine.pluginTHR]
      split <;> simp [countDelete_cons]
  | unregisterPlugins =>
      simp [runOp, ThreadContext.unregister_plugins, Engine.unregisterPluginsTHR,
        countDelete_cons]

theorem countDelete_runOps (c : ThreadContext) (h : Nat) (ops : List CtxOp) :
    ∀ e : Engine, countDelete h (runOps c e ops).trace = countDelete h e.trace := by
  induction ops with
  | nil => intro e; rfl
  | cons op ops ih =>
      intro e
      rw [runOps, ih, countDelete_runOp]

/-- C1: every construction path (`new` and `clone`) builds the wrapper
only after `new_handle`'s assertion that the engine-returned handle is
non-null; a null handle aborts (`none`), so no wrapper with a null
handle is observable.  Construction aborts exactly when the engine
returned the null handle. -/
theorem c1_handle_nonnull_on_construction :
    (∀ e : Engine, handleNonNull (ThreadContext.new e)) ∧
    (∀ (c : ThreadContext) (e : Engine), handleNonNull (c.clone e)) ∧
    ThreadContext.new_handle 0 = none ∧
    (∀ e : Engine, ThreadContext.new e = none ↔ (e.createContext 0 0).2 = 0) ∧
    (∀ (c : ThreadContext) (e : Engine),
      c.clone e = none ↔ (e.dupContext c.handle 0).2 = 0) := by
  refine ⟨fun e => ?_, fun c e => ?_, rfl, fun e => ?_, fun c e => ?_⟩
  · exact handleNonNull_map (e.createContext 0 0).2 (e.createContext 0 0).1
  · exact handleNonNull_map (e.dupContext c.handle 0).2 (e.dupContext c.handle 0).1
  · by_cases h0 : (e.createContext 0 0).2 = 0 <;>
      simp [ThreadContext.new, ThreadContext.new_handle, h0]
  · by_cases h0 : (e.dupContext c.handle 0).2 = 0 <;>
      simp [ThreadContext.clone, ThreadContext.new_handle, h0]

/-- C2: the context-capability accessor returns the null handle for
`GlobalContext` and the owned handle for `ThreadContext`; it takes and
returns no engine state (pure, no side effects, no failure mode). -/
theorem c2_as_ptr_pure :
    (∀ g : GlobalContext, g.as_ptr = 0) ∧
    (∀ c : ThreadContext, c.as_ptr = c.handle) :=
  ⟨fun _ => rfl, fun _ => rfl⟩

/-- C3: over any completed lifetime of a `ThreadContext` — construction
by `new`, then any sequence of wrapper methods, then `drop` — exactly
one `delete-context` call on the owned handle is added to the trace:
never zero, never two.  No wrapper method other than `drop` emits a
delete. -/
theorem c3_delete_exactly_once :
    ∀ (e : Engine) (ops : List CtxOp), deleteExactlyOnce e ops := by
  intro e ops
  unfold deleteExactlyOnce ThreadContext.new Engine.createContext ThreadContext.new_handle
  cases hA : e.allocOk (e.nextHandle + 1) with
  | false => simp [hA]
  | true =>
      simp [hA, ThreadContext.drop, Engine.deleteContext, countDelete_runOps,
        countDelete_cons]

/-- C4: a context built by `new()` reports null user data (`new` passes
null user data to `create-context`), and a context built by `clone()`
reports its source's user data (`clone` passes null new-user-data to
`duplicate-context`); hence any context built only through this layer
reports null. -/
theorem c4_user_data_null_by_default :
    (∀ e : Engine, newUserDataNull e) ∧
    (∀ (c0 : ThreadContext) (e : Engine), cloneKeepsUserData c0 e) ∧
    (∀ e : Engine, newTracesNullArgs e) ∧
    (∀ (c0 : ThreadContext) (e : Engine), cloneTracesNullUserData c0 e) := by
  refine ⟨fun e => ?_, fun c0 e => ?_, fun e => ?_, fun c0 e => ?_⟩
  · unfold newUserDataNull ThreadContext.new Engine.createContext ThreadContext.new_handle
    cases hA : e.allocOk (e.nextHandle + 1) with
    | false => simp [hA]
    | true => simp [hA, ThreadContext.user_data, Engine.getContextUserData]
  · unfold cloneKeepsUserData ThreadContext.clone Engine.dupContext ThreadContext.new_handle
    cases hA : e.allocOk (e.nextHandle + 1) with
    | false => simp [hA]
    | true => simp [hA, ThreadContext.user_data, Engine.getContextUserData]
  · unfold newTracesNullArgs ThreadContext.new Engine.createContext ThreadContext.new_handle
    cases hA : e.allocOk (e.nextHandle + 1) with
    | false => simp [hA]
    | true => simp [hA]
  · unfold cloneTracesNullUserData ThreadContext.clone Engine.dupContext ThreadContext.new_handle
    cases hA : e.allocOk (e.nextHandle + 1) with
    | false => simp [hA]
    | true => simp [hA]

/-- C5: provided the source's handle was allocated by the engine (it
does not exceed the allocation counter), cloning yields a context whose
handle is distinct from the source's, plugin installation on either one
leaves the other's plugin scope untouched, and dropping both deletes
each handle exactly once (independently destructible). -/
theorem c5_clone_independent (c0 : ThreadContext) (e : Engine) (p : Nat)
    (hfresh : c0.handle ≤ e.nextHandle) : cloneIndependent c0 e p := by
  unfold cloneIndependent ThreadContext.clone Engine.dupContext ThreadContext.new_handle
  cases hA : e.allocOk (e.nextHandle + 1) with
  | false => simp [hA]
  | true =>
      have hne : e.nextHandle + 1 ≠ c0.handle := by omega
      have hne' : c0.handle ≠ e.nextHandle + 1 := fun h => hne h.symm
      simp only [hA, if_true, Nat.succ_ne_zero, if_false, Option.map_some']
      refine ⟨hne, ?_, ?_, ?_, ?_⟩ <;>
        simp only [ThreadContext.install_plugin, Engine.pluginTHR,
          ThreadContext.drop, Engine.deleteContext]
      · split <;> simp [hne]
      · split <;> simp [hne']
      · simp [countDelete_cons, hne']
      · simp [countDelete_cons, hne]

/-- Witness for C5 at a concrete source context and engine state. -/
theorem c5_witness : cloneIndependent (ThreadContext.mk 1) testEngine 7 :=
  c5_clone_independent (ThreadContext.mk 1) testEngine 7 (by decide)

/-- C6: operations scoped to one `ThreadContext` leave every other
handle alone: `unregister_plugins` clears this context's plugin list
only, and `drop` leaves the plugins, user data and liveness of every
other handle (including the global scope, handle `0`) unchanged. -/
theorem c6_operations_scoped (c : ThreadContext) (e : Engine) (h2 : Nat)
    (hne : h2 ≠ c.handle) : scopedFrame c e h2 := by
  unfold scopedFrame ThreadContext.unregister_plugins Engine.unregisterPluginsTHR
    ThreadContext.drop Engine.deleteContext
  refine ⟨by simp, by simp [hne], by simp, by simp [hne], by simp [hne], ?_⟩
  exact (List.mem_erase_of_ne hne).symm

/-- Witness for C6: a thread context with handle `1` leaves the global
scope (handle `0`) untouched. -/
theorem c6_witness : scopedFrame (ThreadContext.mk 1) testEngine 0 :=
  c6_operations_scoped (ThreadContext.mk 1) testEngine 0 (by decide)

/-- C7: constructing a `GlobalContext` via `new()` or `default()` is
infallible (total, returns no `Option`) and a no-op on engine state: the
whole state, the trace of native calls included, is unchanged, and
`default()` is exactly `new()`. -/
theorem c7_global_new_noop :
    (∀ e : Engine, (GlobalContext.new e).2 = e) ∧
    (∀ e : Engine, (GlobalContext.new e).2.trace = e.trace) ∧
    (∀ e : Engine, GlobalContext.default e = GlobalContext.new e) :=
  ⟨fun _ => rfl, fun _ => rfl, fun _ => rfl⟩

/-- C8: `install_plugin` returns `true` exactly when the engine's
`register-plugin-scoped` call on this context's handle reports a
nonzero result, and the registration touches no other handle's plugin
scope. -/
theorem c8_install_plugin_result (c : ThreadContext) (p : Nat) (e : Engine)
    (h2 : Nat) (hne : h2 ≠ c.handle) : installPluginSpec c p e h2 := by
  unfold installPluginSpec
  simp only [ThreadContext.install_plugin, Engine.pluginTHR]
  constructor
  · split <;> simp [bne_iff_ne] <;> exact ne_comm
  · split <;> simp [hne]

/-- Witness for C8 at a concrete context, plugin and engine state. -/
theorem c8_witness : installPluginSpec (ThreadContext.mk 1) 7 testEngine 2 :=
  c8_install_plugin_result (ThreadContext.mk 1) 7 testEngine 2 (by decide)

/-- C9: `ThreadContext` also implements `default()`, and it is the very
same function as `new()`: the same `create-context` call with null
allocator and null user data, filtered through the same
fatal-on-null-handle `new_handle`. -/
theorem c9_thread_default_eq_new :
    (∀ e : Engine, ThreadContext.default e = ThreadContext.new e) ∧
    (∀ e : Engine,
      ThreadContext.default e
        = (ThreadContext.new_handle (e.createContext 0 0).2).map
            (fun c => (c, (e.createContext 0 0).1))) :=
  ⟨fun _ => rfl, fun _ => rfl⟩

/-- C10: the wrapper's handle is fixed at construction — no wrapper
method reassigns it — so over any completed lifetime the handle passed
to `delete-context` at destruction is exactly the handle that
`create-context` returned at construction. -/
theorem c10_drop_uses_construction_handle :
    ∀ (e : Engine) (ops : List CtxOp), dropUsesConstructionHandle e ops := by
  intro e ops
  unfold dropUsesConstructionHandle ThreadContext.new Engine.createContext
    ThreadContext.new_handle
  cases hA : e.allocOk (e.nextHandle + 1) with
  | false => simp [hA]
  | true => simp [hA, ThreadContext.drop, Engine.deleteContext]

end Lcms2
